import Mathlib

set_option autoImplicit false

/-!
Shallow embedding of the media acquisition job engine of the `artemis` bot,
centred on the `download` command of `src/cogs/media.py` and its helpers
(`match_filter`, the trim planner, the delivery-tier branches and the
`finally` cleanup), together with `check_for_ssrf` from
`src/artemis/utils/common.py` and the size constants of
`src/utils/constants.py`.

Machine integers are modelled as `Nat`/`Int`; media durations (Python
floats produced by the external `parse_duration`) are modelled as `ℚ`.
External collaborators (yt-dlp extraction, the litterbox upload client,
the Discord reply sink) are modelled as inputs in an `Env` record: the
embedding covers exactly the repository's own control flow over their
results.  Python truthiness of optional numbers (`None` and `0` both
falsy) is modelled explicitly by `truthyInt` / `truthyQ` / `pyOr`.
-/

namespace Artemis

/-- Constant `MAX_DISCORD_SIZE = 25 * 1024**2` from `src/utils/constants.py` line 3. -/
def MAX_DISCORD_SIZE : Nat := 25 * 1024 ^ 2

/-- Constant `MAX_LITTERBOX_SIZE = 1024**3` from `src/utils/constants.py` line 6. -/
def MAX_LITTERBOX_SIZE : Nat := 1024 ^ 3

/-- A URL host as seen by `urlparse(url).hostname`: either a DNS-style name or
an IPv4 literal given by its four octets.  (IPv6 literals are omitted from the
model; every claim concerns names and IPv4 ranges.) -/
inductive Host where
  | name (s : String)
  | ipv4 (a b c d : Nat)
  deriving DecidableEq, Repr

/-- Model of `aiohttp.helpers.is_ip_address` on a parsed host: true exactly for
IP literals (`None` and DNS names give false). -/
def is_ip_address : Option Host → Bool
  | some (.ipv4 _ _ _ _) => true
  | _ => false

/-- Model of CPython `ipaddress.IPv4Address.is_private` (the
`iana-ipv4-special-registry` network list: 0.0.0.0/8, 10.0.0.0/8, 127.0.0.0/8,
169.254.0.0/16, 172.16.0.0/12, 192.0.0.0/29, 192.0.0.170/31, 192.0.2.0/24,
192.168.0.0/16, 198.18.0.0/15, 198.51.100.0/24, 203.0.113.0/24, 240.0.0.0/4
and 255.255.255.255/32). -/
def ipv4_is_private (a b c d : Nat) : Bool :=
  a == 0 || a == 10 || a == 127 ||
  (a == 169 && b == 254) ||
  (a == 172 && 16 ≤ b && b ≤ 31) ||
  (a == 192 && b == 0 && c == 0 && d ≤ 7) ||
  (a == 192 && b == 0 && c == 0 && (d == 170 || d == 171)) ||
  (a == 192 && b == 0 && c == 2) ||
  (a == 192 && b == 168) ||
  (a == 198 && (b == 18 || b == 19)) ||
  (a == 198 && b == 51 && c == 100) ||
  (a == 203 && b == 0 && c == 113) ||
  240 ≤ a

/-- Python truthiness of the hostname string (`None` and the empty string are
falsy). -/
def hostTruthy : Option Host → Bool
  | none => false
  | some (.name s) => s ≠ ""
  | some (.ipv4 _ _ _ _) => true

/-- The `hostname == "localhost"` comparison. -/
def hostIsLocalhost : Option Host → Bool
  | some (.name s) => s == "localhost"
  | _ => false

/-- The `ip_address(hostname).is_private` read, only reached when
`is_ip_address` holds. -/
def hostPrivate : Option Host → Bool
  | some (.ipv4 a b c d) => ipv4_is_private a b c d
  | _ => false

/-- Model of `check_for_ssrf` from `src/artemis/utils/common.py` lines 317-326.  The
Python condition parses as
`(hostname and hostname == "localhost") or (is_ip_address(hostname) and
ip_address(hostname).is_private)`; returns true when `SSRFError` is raised. -/
def check_for_ssrf (hostname : Option Host) : Bool :=
  (hostTruthy hostname && hostIsLocalhost hostname) ||
  (is_ip_address hostname && hostPrivate hostname)

/-- The metadata fields of the yt-dlp `info_dict` that the engine reads. -/
structure InfoDict where
  duration : Option ℚ
  filesize : Option Int
  filesize_approx : Option Int
  is_live : Bool
  id : String
  ext : String
  deriving DecidableEq, Repr

/-- Python `a or b` on two optional integers: falsy (`None` or `0`) left
operand yields the right operand. -/
def pyOr (a b : Option Int) : Option Int :=
  match a with
  | some x => if x = 0 then b else some x
  | none => b

/-- Python truthiness of an optional integer. -/
def truthyInt : Option Int → Bool
  | none => false
  | some x => x ≠ 0

/-- Python truthiness of an optional rational. -/
def truthyQ : Option ℚ → Bool
  | none => false
  | some x => x ≠ 0

/-- The raise sites of the job, one constructor per distinct raise statement
of `Media.download` (plus `extraction` for the `run_ytdlp` failure path and
`unexpected` for non-`ArtemisError` exceptions in the reply sink). -/
inductive ErrKind where
  | ssrf
  | noUrl
  | invalidTrim
  | trimTooLong
  | trimZero
  | formatWithTrim
  | extraction
  | filterLive
  | filterNoMeta
  | filterTooBig
  | filterTooLong
  | internalMissing
  | tooBigAfter
  | segmented
  | unexpected
  deriving DecidableEq, Repr

/-- Every raise in the job body is an `ArtemisError` (or the `SSRFError`
subclass) except the modelled non-Artemis reply-sink exception. -/
def ErrKind.isArtemis : ErrKind → Bool
  | .unexpected => false
  | _ => true

/-- An in-flight exception: its raise site and its `str(err)` message. -/
structure DLErr where
  kind : ErrKind
  msg : String
  deriving DecidableEq, Repr

/-- Outcome of the `match_filter` closure: `return None` (admit) or an
`ArtemisError` raise. -/
inductive FilterOut where
  | ok
  | reject (e : DLErr)
  deriving DecidableEq, Repr

/-- The `match_filter` closure of `Media.download`
(`src/cogs/media.py` lines 438-456).  `sudo` is
`"#_sudo" in url and ctx.author.id == self.bot.owner_id`; `trimPresent` is the
truthiness of the `trim` flag. -/
def match_filter (bypass : Bool) (trimPresent : Bool) (i : InfoDict) : FilterOut :=
  if bypass then .ok
  else
    let duration := i.duration
    let filesize := pyOr i.filesize i.filesize_approx
    if i.is_live then
      .reject ⟨.filterLive, "Streams are not supported."⟩
    else if trimPresent then
      .ok
    else if !truthyQ duration && !truthyInt filesize then
      .reject ⟨.filterNoMeta, "Failed to extract duration and filesize."⟩
    else if truthyInt filesize &&
        (filesize.getD 0 < 1 || filesize.getD 0 > (MAX_LITTERBOX_SIZE : Int)) then
      .reject ⟨.filterTooBig, "The video is too big (> 1 GB)."⟩
    else if truthyQ duration &&
        (duration.getD 0 < 0 || duration.getD 0 > 3600) then
      .reject ⟨.filterTooLong, "The video is too long (> 1 hour)."⟩
    else
      .ok

/-- Parsing step `dur = tuple(map(parse_duration, trim.strip().split("-")))` followed by
`len(dur) == 2 and all(t is not None for t in dur)`: the input is the list of
`parse_duration` results on the dash-separated parts. -/
def trimParse (parts : List (Option ℚ)) : Option (ℚ × ℚ) :=
  match parts with
  | [some ss, some toV] => some (ss, toV)
  | _ => none

/-- What the job hands back to the requester on success: an inline Discord
attachment, a litterbox link, or the relayed `CatboxError` text (the upload
failure that is caught and replied rather than raised). -/
inductive Delivered where
  | inline
  | remote (link : String)
  | catboxNote (m : String)
  deriving DecidableEq, Repr

/-- Observable side effects of one job run. -/
structure Trace where
  resolverInvoked : Bool
  downloadProceeded : Bool
  uploadAttempted : Bool
  cooldownReset : Bool
  pathEstablished : Bool
  lockReleased : Bool
  unlinkCount : Nat
  deriving DecidableEq, Repr

def Trace.init : Trace :=
  { resolverInvoked := false, downloadProceeded := false,
    uploadAttempted := false, cooldownReset := false,
    pathEstablished := false, lockReleased := false, unlinkCount := 0 }

/-- One job's environment: the request plus the behaviour of every external
collaborator the job consults. -/
structure Env where
  /-- Parsed host of the (stripped) URL. -/
  host : Option Host
  /-- Truthiness of the stripped URL string. -/
  urlNonempty : Bool
  /-- Whether the URL contains the `#_sudo` marker. -/
  sudoMarker : Bool
  /-- Whether the requester is the configured owner. -/
  isOwner : Bool
  /-- `parse_duration` results of the dash-split trim flag, when present. -/
  trim : Option (List (Option ℚ))
  /-- The `format` flag, when present (regex-parsed flags are non-empty). -/
  format : Option String
  /-- Metadata of the resolved descriptor. -/
  info : InfoDict
  /-- Sanitized message of an external extraction failure, if one occurs. -/
  extFail : Option String
  /-- Whether the expected scratch file exists after extraction. -/
  fileExists : Bool
  /-- `path.stat().st_size` of the produced artifact. -/
  size : Nat
  /-- Result of `litterbox.upload`: a link, or a `CatboxError` message. -/
  upload : Except String String
  /-- Whether the final reply raises a non-Artemis platform exception. -/
  replyCrash : Bool

/-- The f-string of the missing-file raise at `src/cogs/media.py` line 507. -/
def internalMsg (i : InfoDict) : String :=
  "Internal Error: File data/temp/" ++ i.id ++ "." ++ i.ext ++ " does not exist."

/-- The trim-planning block of `Media.download` (`src/cogs/media.py` lines
465-484): parse the two bounds, then check `diff > 3600` and `diff < 1`, in
that order.  Returns the raised error, or `none` when planning passes (also
when no trim flag is present). -/
def trimCheck : Option (List (Option ℚ)) → Option DLErr
  | none => none
  | some parts =>
    match trimParse parts with
    | none =>
      some ⟨.invalidTrim, "Invalid trim selection. Must be of the form `start-end`."⟩
    | some (ss, toV) =>
      if toV - ss > 3600 then
        some ⟨.trimTooLong, "The trim selection is too long (> 1 hour)."⟩
      else if toV - ss < 1 then
        some ⟨.trimZero, "The trim selection cannot be negative or zero."⟩
      else none

/-- A reply call on the Discord sink: either the modelled non-Artemis platform
exception, or the delivered payload. -/
def replyOr (env : Env) (d : Delivered) : Except DLErr Delivered :=
  if env.replyCrash then .error ⟨.unexpected, "platform exception"⟩ else .ok d

/-- Trace once `run_ytdlp` has been entered. -/
def trAfterResolve : Trace := { Trace.init with resolverInvoked := true }

/-- Trace once `match_filter` admitted and `path` was assigned
(`src/cogs/media.py` line 505). -/
def trAfterFilter : Trace :=
  { trAfterResolve with downloadProceeded := true, pathEstablished := true }

/-- Trace on the litterbox branch (`src/cogs/media.py` line 515). -/
def trUpload : Trace := { trAfterFilter with uploadAttempted := true }

/-- The `try` body of `Media.download` (`src/cogs/media.py` lines 432-523):
SSRF check, empty-URL check, trim planning, format/trim exclusivity,
resolution + download through yt-dlp (external failure, then `match_filter`),
scratch-file existence assertion, and the three delivery tiers. -/
def runTry (env : Env) : Except DLErr Delivered × Trace :=
  if check_for_ssrf env.host then
    (.error ⟨.ssrf, "Error: Invalid URL."⟩, Trace.init)
  else if !env.urlNonempty then
    (.error ⟨.noUrl, "No URL provided."⟩, Trace.init)
  else
    match trimCheck env.trim with
    | some e => (.error e, Trace.init)
    | none =>
      if env.format.isSome && env.trim.isSome then
        (.error ⟨.formatWithTrim,
          "Format choice is not supported with a trim selection."⟩, Trace.init)
      else
        match env.extFail with
        | some m => (.error ⟨.extraction, m⟩, trAfterResolve)
        | none =>
          match match_filter (env.sudoMarker && env.isOwner) env.trim.isSome env.info with
          | .reject e => (.error e, trAfterResolve)
          | .ok =>
            if !env.fileExists then
              (.error ⟨.internalMissing, internalMsg env.info⟩, trAfterFilter)
            else if env.size ≤ MAX_DISCORD_SIZE then
              (replyOr env .inline, trAfterFilter)
            else if env.size ≤ MAX_LITTERBOX_SIZE then
              (match env.upload with
               | .ok link => replyOr env (.remote link)
               | .error m => replyOr env (.catboxNote m), trUpload)
            else
              (.error ⟨.tooBigAfter,
                "The file passed the initial filesize guesstimation but is still too big to upload (> 1 GB)."⟩,
               trAfterFilter)

/-- Whether the first character list starts the second. -/
def segStarts : List Char → List Char → Bool
  | [], _ => true
  | _ :: _, [] => false
  | a :: as, b :: bs => a == b && segStarts as bs

/-- Whether the first character list occurs contiguously inside the second. -/
def segInside (n : List Char) : List Char → Bool
  | [] => segStarts n []
  | b :: bs => segStarts n (b :: bs) || segInside n bs

/-- Python `needle in haystack` (contiguous substring containment). -/
def pyIn (needle haystack : String) : Bool :=
  segInside needle.toList haystack.toList

/-- Truthiness of `ss and to` in the `except ArtemisError` handler: `to` is
only set (to a rational) when the trim flag parsed, and a rational is truthy
iff nonzero. -/
def ssToTruthy (env : Env) : Bool :=
  match env.trim with
  | some parts =>
    match trimParse parts with
    | some (ss, toV) => if ss = 0 then false else if toV = 0 then false else true
    | none => false
  | none => false

/-- Whether a job result is a raised `ArtemisError` (as opposed to success or
a non-Artemis exception). -/
def resultIsArtemisError (r : Except DLErr Delivered) : Bool :=
  match r with
  | .error e => e.kind.isArtemis
  | .ok _ => false

/-- The whole `download` job (`src/cogs/media.py` lines 394-534): the `try`
body, the `except ArtemisError` handler (cooldown reset, then the
format-not-available rewrite when `ss and to` is truthy), the pass-through
`except Exception`, and the `finally` block (scratch unlink when the path was
established and the file exists).  `lockReleased` models the command
framework's `max_concurrency(1)` slot release, which happens after the
command returns or raises. -/
def download (env : Env) : Except DLErr Delivered × Trace :=
  let (res, tr1) := runTry env
  let (out, tr2) : Except DLErr Delivered × Trace :=
    match res with
    | .error e =>
      if e.kind.isArtemis then
        (if pyIn "requested format not available" e.msg && ssToTruthy env then
          Except.error ⟨.segmented,
            "Segmented streams are not supported with a trim selection."⟩
         else Except.error e,
         { tr1 with cooldownReset := true })
      else (.error e, tr1)
    | .ok d => (.ok d, tr1)
  (out, { tr2 with
          unlinkCount := if tr2.pathEstablished && env.fileExists then 1 else 0,
          lockReleased := true })

/-- The delivery tier enum of the spec's data model. -/
inductive DeliveryTier where
  | inlineTier
  | remoteTemporary
  | rejected
  deriving DecidableEq, Repr

/-- The tier branch structure of `src/cogs/media.py` lines 511-521. -/
def deliveryTier (size : Nat) : DeliveryTier :=
  if size ≤ MAX_DISCORD_SIZE then .inlineTier
  else if size ≤ MAX_LITTERBOX_SIZE then .remoteTemporary
  else .rejected

/-- The conditions under which a run gets past validation, resolution and the
scratch-file assertion, i.e. reaches the delivery-tier branch of the job. -/
def ReachesDelivery (env : Env) : Prop :=
  check_for_ssrf env.host = false ∧
  env.urlNonempty = true ∧
  trimCheck env.trim = none ∧
  (env.format.isSome && env.trim.isSome) = false ∧
  env.extFail = none ∧
  match_filter (env.sudoMarker && env.isOwner) env.trim.isSome env.info = .ok ∧
  env.fileExists = true

/-- A benign descriptor (spec scenario A: 120 s, 5 MiB). -/
def baseInfo : InfoDict :=
  { duration := some 120, filesize := some 5242880, filesize_approx := none,
    is_live := false, id := "dQw4w9WgXcQ", ext := "mp4" }

/-- A benign job environment used to instantiate the theorems. -/
def baseEnv : Env :=
  { host := some (.name "youtube.com"), urlNonempty := true,
    sudoMarker := false, isOwner := false, trim := none, format := none,
    info := baseInfo, extFail := none, fileExists := true,
    size := 5242880, upload := .ok "https://litter.catbox.moe/abc.mp4",
    replyCrash := false }

/-- A descriptor with no duration and no (exact or approximate) filesize. -/
def infoNoMeta : InfoDict :=
  { baseInfo with duration := none, filesize := none, filesize_approx := none }

/-- A job whose descriptor carries no duration/filesize metadata. -/
def envNoMeta : Env := { baseEnv with info := infoNoMeta }

/-- A descriptor with a known duration and a recorded filesize of exactly 0
bytes. -/
def infoZeroSize : InfoDict :=
  { baseInfo with duration := some 100, filesize := some 0, filesize_approx := none }

/-- A job with a backwards trim selection (start 5, end 3). -/
def envTrimBackward : Env := { baseEnv with trim := some [some 5, some 3] }

/-- A job with a positive but sub-second trim selection (0 to 1/2). -/
def envTrimHalfSecond : Env := { baseEnv with trim := some [some 0, some (1/2)] }

/-- A job whose expected scratch file is absent after a successful
extraction. -/
def envNoFile : Env := { baseEnv with fileExists := false }

/-- A job whose final reply raises a non-Artemis platform exception. -/
def envReplyCrash : Env := { baseEnv with replyCrash := true }

/-- A trimmed job starting at second 0 whose extraction fails with the
format-not-available message. -/
def envZeroStartTrim : Env :=
  { baseEnv with trim := some [some 0, some 30],
                 extFail := some "requested format not available" }

/-- A trimmed job with both offsets nonzero whose extraction fails with the
format-not-available message. -/
def envNonzeroTrim : Env :=
  { baseEnv with trim := some [some 10, some 40],
                 extFail := some "requested format not available" }

/-- A job whose URL host is the private IPv4 literal 192.168.1.1. -/
def envPrivateHost : Env := { baseEnv with host := some (.ipv4 192 168 1 1) }

/-- A descriptor of a two-hour video (spec scenario C). -/
def infoLong : InfoDict := { baseInfo with duration := some 7200 }

/-- Every exit of the `try` body carries one of the four intermediate traces. -/
theorem runTry_trace_cases (env : Env) :
    (runTry env).2 = Trace.init ∨ (runTry env).2 = trAfterResolve ∨
    (runTry env).2 = trAfterFilter ∨ (runTry env).2 = trUpload := by
  unfold runTry
  repeat' split
  all_goals simp

/-- Evaluation of the trim-planning block on a parsed two-bound window that
passes both length checks. -/
theorem trimCheck_pair (ss toV : ℚ) (h1 : ¬ toV - ss > 3600)
    (h2 : ¬ toV - ss < 1) :
    trimCheck (some [some ss, some toV]) = none := by
  simp only [trimCheck, trimParse]
  rw [if_neg h1, if_neg h2]

/-- The `try` body never resets the cooldown (only the `except` handler
does). -/
theorem runTry_cooldownReset (env : Env) :
    (runTry env).2.cooldownReset = false := by
  rcases runTry_trace_cases env with h | h | h | h <;> rw [h] <;> rfl

/-- C2: on every exit path of a download job — successful delivery, validation
failure, extraction failure, delivery failure, or unexpected exception — the
scratch file is deleted exactly once (by the single `finally` guard) precisely
when a path was established and the file exists; no branch deletes it a second
time. -/
theorem scratch_file_deleted_exactly_once_by_finally (env : Env) :
    (download env).2.unlinkCount
      = (if (download env).2.pathEstablished && env.fileExists then 1 else 0) ∧
    (download env).2.unlinkCount ≤ 1 := by
  have hU : (download env).2.unlinkCount
      = (if (download env).2.pathEstablished && env.fileExists then 1 else 0) := by
    unfold download
    rcases hr : runTry env with ⟨res, tr⟩
    simp only [hr]
  refine ⟨hU, ?_⟩
  rw [hU]
  split <;> simp

/-- C7 counterexample: a job that fails with a non-Artemis exception (the
reply sink raising a platform error) terminates in failure, yet the
requester's cooldown is not reset — refuting the claim that every failing job
resets the cooldown. -/
theorem unexpected_failure_keeps_cooldown :
    (download envReplyCrash).1 = .error ⟨.unexpected, "platform exception"⟩ ∧
    (download envReplyCrash).2.cooldownReset = false := by
  constructor <;> rfl

/-- C7 amended: the cooldown is reset exactly when the job terminates by
raising an `ArtemisError` (the typed engine error, including the rewritten
segmented-stream error); a successful job, or one failing with an unexpected
non-Artemis exception, leaves the cooldown in place.  The global
single-job slot is released in every case. -/
theorem cooldown_reset_exactly_on_artemis_errors (env : Env) :
    (download env).2.lockReleased = true ∧
    (download env).2.cooldownReset = resultIsArtemisError (download env).1 := by
  have hcool := runTry_cooldownReset env
  unfold download resultIsArtemisError
  rcases hr : runTry env with ⟨res, tr⟩
  rw [hr] at hcool
  simp only at hcool
  simp only [hr]
  cases res with
  | error e =>
    by_cases ha : e.kind.isArtemis = true
    · by_cases hin : (pyIn "requested format not available" e.msg = true ∧
          ssToTruthy env = true)
      · simp [ha, hin]
        rfl
      · simp [ha, hin]
    · simp only [Bool.not_eq_true] at ha
      simp [ha, hcool]
  | ok d => simp [hcool]

/-- C3: a job whose resolved descriptor has neither a known duration nor a
known (exact or approximate) filesize, with no trim window, no live flag and
no owner bypass, is rejected with "Failed to extract duration and filesize."
and the download never proceeds. -/
theorem reject_when_duration_and_filesize_unknown (env : Env)
    (hs : check_for_ssrf env.host = false) (hu : env.urlNonempty = true)
    (ht : env.trim = none) (he : env.extFail = none)
    (hb : (env.sudoMarker && env.isOwner) = false)
    (hd : env.info.duration = none) (hf : env.info.filesize = none)
    (hfa : env.info.filesize_approx = none) (hl : env.info.is_live = false) :
    (download env).1
      = .error ⟨.filterNoMeta, "Failed to extract duration and filesize."⟩ ∧
    (download env).2.downloadProceeded = false := by
  unfold download runTry
  simp [hs, hu, ht, he, hb, trimCheck, match_filter, hd, hf, hfa, hl, pyOr,
    truthyQ, truthyInt, ssToTruthy, ErrKind.isArtemis, trAfterResolve, Trace.init]

/-- Witness for C3 at a concrete metadata-free job. -/
theorem reject_when_duration_and_filesize_unknown_witness :
    (download envNoMeta).1
      = .error ⟨.filterNoMeta, "Failed to extract duration and filesize."⟩ ∧
    (download envNoMeta).2.downloadProceeded = false :=
  reject_when_duration_and_filesize_unknown envNoMeta
    rfl rfl rfl rfl rfl rfl rfl rfl rfl

/-- C4 counterexample: a known filesize of exactly 0 bytes lies outside
(0, 1 GiB], yet the untrimmed, non-live, non-bypassed request with a valid
known duration is admitted, not rejected: a zero filesize is falsy in the
source's truthiness test, so the size check is skipped. -/
theorem evaluator_admits_zero_filesize :
    infoZeroSize.filesize = some 0 ∧ (0 : Int) ∉ Set.Ioc 0 1073741824 ∧
    match_filter false false infoZeroSize = .ok := by
  refine ⟨rfl, by simp, rfl⟩

/-- C4 amended: for untrimmed, non-live, non-bypassed jobs with at least one
nonzero known metric, the evaluator rejects as too big when the effective
filesize (exact, else approximate) is nonzero and outside (0, 1 GiB];
otherwise rejects as too long when the known duration is nonzero and either
negative or above 3600 s; otherwise admits.  A filesize or duration recorded
as exactly 0 is treated as unknown (so a 0-byte size is admitted), and
negative durations are rejected as too long rather than admitted. -/
theorem evaluator_size_duration_policy (i : InfoDict)
    (hl : i.is_live = false)
    (hk : (truthyQ i.duration || truthyInt (pyOr i.filesize i.filesize_approx)) = true) :
    ((∃ fs, pyOr i.filesize i.filesize_approx = some fs ∧ fs ≠ 0 ∧
        (fs < 1 ∨ 1073741824 < fs)) →
      match_filter false false i
        = .reject ⟨.filterTooBig, "The video is too big (> 1 GB)."⟩) ∧
    ((∀ fs, pyOr i.filesize i.filesize_approx = some fs →
        fs = 0 ∨ (1 ≤ fs ∧ fs ≤ 1073741824)) →
      (∃ d, i.duration = some d ∧ d ≠ 0 ∧ (d < 0 ∨ 3600 < d)) →
      match_filter false false i
        = .reject ⟨.filterTooLong, "The video is too long (> 1 hour)."⟩) ∧
    ((∀ fs, pyOr i.filesize i.filesize_approx = some fs →
        fs = 0 ∨ (1 ≤ fs ∧ fs ≤ 1073741824)) →
      (∀ d, i.duration = some d → d = 0 ∨ (0 ≤ d ∧ d ≤ 3600)) →
      match_filter false false i = .ok) := by
  have hM : (MAX_LITTERBOX_SIZE : Int) = 1073741824 := by norm_num [MAX_LITTERBOX_SIZE]
  unfold match_filter
  simp only [hl, hM, Bool.false_eq_true, if_false]
  rcases hF : pyOr i.filesize i.filesize_approx with _ | fs <;>
    rcases hD : i.duration with _ | d <;>
    rw [hD, hF] at hk <;>
    simp only [truthyQ, truthyInt, Option.getD_some, Option.getD_none] at hk ⊢
  · simp at hk
  · refine ⟨?_, ?_, ?_⟩
    · rintro ⟨fs2, hfs2, -⟩; cases hfs2
    · rintro - ⟨d2, hd2, hne, hout⟩
      obtain rfl : d = d2 := by injection hd2
      have h1 : decide (d ≠ 0) = true := by simp [hne]
      simp only [h1, Bool.not_true, Bool.false_and, Bool.and_false, Bool.false_eq_true,
        if_false, Bool.true_and, Bool.not_false]
      rcases hout with h | h <;> simp [h, hne]
    · intro hsz hdur
      rcases hdur d rfl with rfl | ⟨h0, h1⟩
      · simp at hk
      · have hd1 : decide (d < 0) = false := by simp; linarith
        have hd2 : decide (d > 3600) = false := by simp; linarith
        have hdne : ¬d = 0 := by simpa using hk
        simp [hd1, hd2, hdne]
  · refine ⟨?_, ?_, ?_⟩
    · rintro ⟨fs2, hfs2, hne, hout⟩
      obtain rfl : fs = fs2 := by injection hfs2
      have h1 : decide (fs ≠ 0) = true := by simp [hne]
      simp only [h1, Bool.not_true, Bool.and_false, Bool.false_and, Bool.false_eq_true,
        if_false, Bool.true_and]
      rcases hout with h | h <;> simp [h, hne]
    · rintro hsz ⟨d2, hd2, -⟩; cases hd2
    · intro hsz hdur
      rcases hsz fs rfl with rfl | ⟨h0, h1⟩
      · simp at hk
      · have hf1 : decide (fs < 1) = false := by simp; omega
        have hf2 : decide (fs > 1073741824) = false := by simp; omega
        have hfne : ¬fs = 0 := by simpa using hk
        simp [hf1, hf2, hfne]
  · refine ⟨?_, ?_, ?_⟩
    · rintro ⟨fs2, hfs2, hne, hout⟩
      obtain rfl : fs = fs2 := by injection hfs2
      have h1 : decide (fs ≠ 0) = true := by simp [hne]
      simp only [h1, Bool.not_true, Bool.and_false, Bool.false_and, Bool.false_eq_true,
        if_false, Bool.true_and]
      rcases hout with h | h <;> simp [h, hne]
    · rintro hsz ⟨d2, hd2, hne, hout⟩
      obtain rfl : d = d2 := by injection hd2
      rcases hsz fs rfl with rfl | ⟨h0, h1⟩
      · have h1 : decide (d ≠ 0) = true := by simp [hne]
        simp only [h1, decide_eq_true_eq]
        rcases hout with h | h <;> simp [h, hne]
      · have hf1 : decide (fs < 1) = false := by simp; omega
        have hf2 : decide (fs > 1073741824) = false := by simp; omega
        have h1 : decide (d ≠ 0) = true := by simp [hne]
        simp only [h1, hf1, hf2, Bool.or_self, Bool.and_false, Bool.false_eq_true, if_false]
        rcases hout with h | h <;> simp [h, hne]
    · intro hsz hdur
      rcases hsz fs rfl with rfl | ⟨h0, h1⟩
      · have hdne : ¬d = 0 := by
          rcases (by simpa using hk : ¬d = 0 ∨ ¬(0 : Int) = 0) with h | h
          · exact h
          · exact absurd rfl h
        rcases hdur d rfl with rfl | ⟨h2, h3⟩
        · exact absurd rfl hdne
        · have hd1 : decide (d < 0) = false := by simp; linarith
          have hd2 : decide (d > 3600) = false := by simp; linarith
          simp [hd1, hd2, hdne]
      · have hf1 : decide (fs < 1) = false := by simp; omega
        have hf2 : decide (fs > 1073741824) = false := by simp; omega
        have hfne : ¬fs = 0 := by omega
        rcases hdur d rfl with rfl | ⟨h2, h3⟩
        · simp [hf1, hf2, hfne]
        · have hd1 : decide (d < 0) = false := by simp; linarith
          have hd2 : decide (d > 3600) = false := by simp; linarith
          simp [hf1, hf2, hd1, hd2, hfne]

/-- Witness for the amended C4 at spec scenario C (duration 7200 s, 5 MiB). -/
theorem evaluator_size_duration_policy_witness :
    match_filter false false infoLong
      = .reject ⟨.filterTooLong, "The video is too long (> 1 hour)."⟩ :=
  (evaluator_size_duration_policy infoLong rfl (by decide)).2.1
    (by
      intro fs h
      rw [show pyOr infoLong.filesize infoLong.filesize_approx = some 5242880 from rfl] at h
      injection h with h2
      right
      omega)
    ⟨7200, rfl, by norm_num, Or.inr (by norm_num)⟩

/-- C5: every requested trim window whose bounds fail to parse, whose end is
at most its start, or whose length exceeds 3600 s, is rejected before the
extraction subprocess is ever invoked. -/
theorem trim_planner_rejects_before_subprocess (env : Env) (parts : List (Option ℚ))
    (hs : check_for_ssrf env.host = false) (hu : env.urlNonempty = true)
    (ht : env.trim = some parts) :
    (trimParse parts = none →
      (download env).1 = .error ⟨.invalidTrim,
        "Invalid trim selection. Must be of the form `start-end`."⟩ ∧
      (download env).2.resolverInvoked = false) ∧
    (∀ ss toV, trimParse parts = some (ss, toV) → toV ≤ ss →
      (download env).1
        = .error ⟨.trimZero, "The trim selection cannot be negative or zero."⟩ ∧
      (download env).2.resolverInvoked = false) ∧
    (∀ ss toV, trimParse parts = some (ss, toV) → 3600 < toV - ss →
      (download env).1
        = .error ⟨.trimTooLong, "The trim selection is too long (> 1 hour)."⟩ ∧
      (download env).2.resolverInvoked = false) := by
  have hpy1 : pyIn "requested format not available"
      "Invalid trim selection. Must be of the form `start-end`." = false := by decide
  have hpy2 : pyIn "requested format not available"
      "The trim selection cannot be negative or zero." = false := by decide
  have hpy3 : pyIn "requested format not available"
      "The trim selection is too long (> 1 hour)." = false := by decide
  refine ⟨?_, ?_, ?_⟩
  · intro hp
    unfold download runTry
    simp [hs, hu, ht, trimCheck, hp, hpy1, ErrKind.isArtemis, Trace.init]
  · intro ss toV hp hle
    have h1 : ¬ (3600 < toV - ss) := by linarith
    have h2 : toV - ss < 1 := by linarith
    unfold download runTry
    simp [hs, hu, ht, trimCheck, hp, h1, h2, hpy2, ErrKind.isArtemis, Trace.init]
  · intro ss toV hp hgt
    unfold download runTry
    simp [hs, hu, ht, trimCheck, hp, hgt, hpy3, ErrKind.isArtemis, Trace.init]

/-- Witness for C5 at a backwards trim window (5 to 3). -/
theorem trim_planner_rejects_before_subprocess_witness :
    (download envTrimBackward).1
      = .error ⟨.trimZero, "The trim selection cannot be negative or zero."⟩ ∧
    (download envTrimBackward).2.resolverInvoked = false :=
  (trim_planner_rejects_before_subprocess envTrimBackward [some 5, some 3]
    rfl rfl rfl).2.1 5 3 rfl (by norm_num)

/-- C10: a trim window that parses with end strictly greater than start but
length under one second is still rejected before any subprocess, with the
negative-or-zero message: the engine enforces a minimum trim length of 1 s. -/
theorem subsecond_trim_rejected (env : Env) (ss toV : ℚ)
    (hs : check_for_ssrf env.host = false) (hu : env.urlNonempty = true)
    (ht : env.trim = some [some ss, some toV])
    (hlt : ss < toV) (hdiff : toV - ss < 1) :
    (download env).1
      = .error ⟨.trimZero, "The trim selection cannot be negative or zero."⟩ ∧
    (download env).2.resolverInvoked = false := by
  have hpy : pyIn "requested format not available"
      "The trim selection cannot be negative or zero." = false := by decide
  have h1 : ¬ (3600 < toV - ss) := by linarith
  unfold download runTry
  simp [hs, hu, ht, trimCheck, trimParse, h1, hdiff, hpy, ErrKind.isArtemis, Trace.init]

/-- Witness for C10 at the half-second window 0 to 1/2. -/
theorem subsecond_trim_rejected_witness :
    (download envTrimHalfSecond).1
      = .error ⟨.trimZero, "The trim selection cannot be negative or zero."⟩ ∧
    (download envTrimHalfSecond).2.resolverInvoked = false :=
  subsecond_trim_rejected envTrimHalfSecond 0 (1/2) rfl rfl rfl
    (by norm_num) (by norm_num)

/-- C6: when extraction reports success but the expected scratch file (named
from the media id and extension) does not exist, the job raises the internal
error naming the missing file — never a silent empty success — and that error
is distinct from every extraction failure. -/
theorem missing_scratch_file_is_internal_error (env : Env)
    (hs : check_for_ssrf env.host = false) (hu : env.urlNonempty = true)
    (htc : trimCheck env.trim = none)
    (hfm : (env.format.isSome && env.trim.isSome) = false)
    (he : env.extFail = none)
    (hmf : match_filter (env.sudoMarker && env.isOwner) env.trim.isSome env.info
      = .ok)
    (hex : env.fileExists = false) :
    (runTry env).1 = .error ⟨.internalMissing, internalMsg env.info⟩ ∧
    (∀ d, (download env).1 ≠ .ok d) ∧
    (∀ m, (⟨.internalMissing, internalMsg env.info⟩ : DLErr) ≠ ⟨.extraction, m⟩) := by
  have h1 : (runTry env).1 = .error ⟨.internalMissing, internalMsg env.info⟩ := by
    unfold runTry
    simp [hs, hu, htc, hfm, he, hmf, hex]
  refine ⟨h1, ?_, ?_⟩
  · intro d
    unfold download
    rcases hr : runTry env with ⟨res, tr⟩
    rw [hr] at h1
    simp only at h1
    subst h1
    by_cases hc : (pyIn "requested format not available" (internalMsg env.info) = true ∧
        ssToTruthy env = true) <;> simp [ErrKind.isArtemis, hc]
  · intro m
    simp

/-- Witness for C6 at a job whose scratch file is absent. -/
theorem missing_scratch_file_is_internal_error_witness :
    (runTry envNoFile).1 = .error ⟨.internalMissing, internalMsg envNoFile.info⟩ ∧
    (∀ d, (download envNoFile).1 ≠ .ok d) ∧
    (∀ m, (⟨.internalMissing, internalMsg envNoFile.info⟩ : DLErr)
      ≠ ⟨.extraction, m⟩) :=
  missing_scratch_file_is_internal_error envNoFile rfl rfl rfl rfl rfl rfl rfl

/-- C9: a job URL whose host is an IPv4 literal in the loopback (127/8),
link-local (169.254/16) or private (10/8, 172.16/12, 192.168/16) ranges is
rejected with the distinct SSRF error class before the resolver is invoked. -/
theorem private_host_rejected_before_resolution (env : Env) (a b c d : Nat)
    (hhost : env.host = some (.ipv4 a b c d))
    (hrange : a = 127 ∨ (a = 169 ∧ b = 254) ∨ a = 10 ∨
      (a = 172 ∧ 16 ≤ b ∧ b ≤ 31) ∨ (a = 192 ∧ b = 168)) :
    (download env).1 = .error ⟨.ssrf, "Error: Invalid URL."⟩ ∧
    (download env).2.resolverInvoked = false ∧
    ErrKind.ssrf ≠ ErrKind.extraction := by
  have hpy : pyIn "requested format not available" "Error: Invalid URL." = false := by
    decide
  have hssrf : check_for_ssrf env.host = true := by
    rw [hhost]
    unfold check_for_ssrf hostTruthy hostIsLocalhost is_ip_address hostPrivate
      ipv4_is_private
    rcases hrange with rfl | ⟨rfl, rfl⟩ | rfl | ⟨rfl, hb1, hb2⟩ | ⟨rfl, rfl⟩
    · simp
    · simp
    · simp
    · simp [hb1, hb2]
    · simp
  unfold download runTry
  simp [hssrf, hpy, ErrKind.isArtemis, Trace.init]

/-- Witness for C9 at the private host 192.168.1.1. -/
theorem private_host_rejected_before_resolution_witness :
    (download envPrivateHost).1 = .error ⟨.ssrf, "Error: Invalid URL."⟩ ∧
    (download envPrivateHost).2.resolverInvoked = false ∧
    ErrKind.ssrf ≠ ErrKind.extraction :=
  private_host_rejected_before_resolution envPrivateHost 192 168 1 1 rfl
    (Or.inr (Or.inr (Or.inr (Or.inr ⟨rfl, rfl⟩))))

/-- The `except ArtemisError` handler's behaviour on an extraction failure:
the raw message is kept unless it contains the format-not-available marker and
both trim offsets are truthy; the cooldown is reset either way. -/
theorem download_ext_fail (env : Env) (m : String)
    (hs : check_for_ssrf env.host = false) (hu : env.urlNonempty = true)
    (htc : trimCheck env.trim = none)
    (hfm : (env.format.isSome && env.trim.isSome) = false)
    (he : env.extFail = some m) :
    (download env).1 =
      (if pyIn "requested format not available" m && ssToTruthy env then
        .error ⟨.segmented,
          "Segmented streams are not supported with a trim selection."⟩
      else .error ⟨.extraction, m⟩) ∧
    (download env).2.cooldownReset = true := by
  unfold download runTry
  by_cases hc : (pyIn "requested format not available" m = true ∧
      ssToTruthy env = true)
  · simp [hs, hu, htc, hfm, he, hc, ErrKind.isArtemis]
  · simp [hs, hu, htc, hfm, he, hc, ErrKind.isArtemis]

/-- C8 counterexample: a trimmed job (window 0 to 30) whose execution fails
with the format-not-available message is re-raised with the raw message, not
the segmented-streams one: the handler requires `ss and to` to be truthy and
the parsed start offset 0 is falsy. -/
theorem zero_start_trim_keeps_raw_format_error :
    envZeroStartTrim.trim = some [some 0, some 30] ∧
    (download envZeroStartTrim).1
      = .error ⟨.extraction, "requested format not available"⟩ ∧
    (download envZeroStartTrim).1 ≠ .error ⟨.segmented,
      "Segmented streams are not supported with a trim selection."⟩ := by
  have h1 : ¬ ((30 : ℚ) - 0 > 3600) := by norm_num
  have h2 : ¬ ((30 : ℚ) - 0 < 1) := by norm_num
  have htc : trimCheck envZeroStartTrim.trim = none := trimCheck_pair 0 30 h1 h2
  have hss : ssToTruthy envZeroStartTrim = false := by
    simp [ssToTruthy, envZeroStartTrim, baseEnv, trimParse]
  have h := (download_ext_fail envZeroStartTrim "requested format not available"
    rfl rfl htc rfl rfl).1
  rw [hss, Bool.and_false] at h
  simp at h
  refine ⟨rfl, h, ?_⟩
  rw [h]
  simp

/-- C8 amended: an execution failure whose message contains "requested format
not available" is re-reported as segmented streams being unsupported exactly
when both parsed trim offsets are truthy (nonzero); a trimmed job whose start
offset is 0, and every untrimmed job, keeps the original message.  The
cooldown is reset in either case. -/
theorem format_not_available_rewrite_policy (env : Env) (m : String)
    (hs : check_for_ssrf env.host = false) (hu : env.urlNonempty = true)
    (htc : trimCheck env.trim = none)
    (hfm : (env.format.isSome && env.trim.isSome) = false)
    (he : env.extFail = some m)
    (hin : pyIn "requested format not available" m = true) :
    (ssToTruthy env = true →
      (download env).1 = .error ⟨.segmented,
        "Segmented streams are not supported with a trim selection."⟩) ∧
    (ssToTruthy env = false → (download env).1 = .error ⟨.extraction, m⟩) ∧
    (env.trim = none → ssToTruthy env = false) ∧
    (download env).2.cooldownReset = true := by
  refine ⟨?_, ?_, ?_, ?_⟩
  · intro hss
    unfold download runTry
    simp [hs, hu, htc, hfm, he, hin, hss, ErrKind.isArtemis]
  · intro hss
    unfold download runTry
    simp [hs, hu, htc, hfm, he, hin, hss, ErrKind.isArtemis]
  · intro hnone
    simp [ssToTruthy, hnone]
  · unfold download runTry
    simp [hs, hu, htc, hfm, he, ErrKind.isArtemis]

/-- Witness for the amended C8 at the trim window 10 to 40. -/
theorem format_not_available_rewrite_policy_witness :
    (download envNonzeroTrim).1 = .error ⟨.segmented,
      "Segmented streams are not supported with a trim selection."⟩ :=
  (format_not_available_rewrite_policy envNonzeroTrim
    "requested format not available" rfl rfl
    (trimCheck_pair 10 40 (by norm_num) (by norm_num))
    rfl rfl (by decide)).1
    (by
      show ssToTruthy envNonzeroTrim = true
      have h10 : (10 : ℚ) ≠ 0 := by norm_num
      have h40 : (40 : ℚ) ≠ 0 := by norm_num
      simp [ssToTruthy, envNonzeroTrim, baseEnv, trimParse, h10, h40])

/-- C1: the delivery tier is chosen solely by the artifact's actual byte
size — at most 25 MiB is delivered inline, sizes in (25 MiB, 1 GiB] go to the
remote temporary host, and above 1 GiB the job fails with the typed too-big
error without attempting an upload. -/
theorem tier_selection_by_actual_size (env : Env) (sz : Nat)
    (h : ReachesDelivery env) (hcrash : env.replyCrash = false) :
    (sz ≤ 26214400 → deliveryTier sz = .inlineTier) ∧
    (26214400 < sz → sz ≤ 1073741824 → deliveryTier sz = .remoteTemporary) ∧
    (1073741824 < sz → deliveryTier sz = .rejected) ∧
    (env.size ≤ 26214400 →
      (download env).1 = .ok .inline ∧
      (download env).2.uploadAttempted = false) ∧
    (26214400 < env.size → env.size ≤ 1073741824 →
      (download env).2.uploadAttempted = true ∧
      ∀ link, env.upload = .ok link → (download env).1 = .ok (.remote link)) ∧
    (1073741824 < env.size →
      (download env).1 = .error ⟨.tooBigAfter,
        "The file passed the initial filesize guesstimation but is still too big to upload (> 1 GB)."⟩ ∧
      (download env).2.uploadAttempted = false) := by
  obtain ⟨h1, h2, h3, h4, h5, h6, h7⟩ := h
  have hD : MAX_DISCORD_SIZE = 26214400 := by norm_num [MAX_DISCORD_SIZE]
  have hL : MAX_LITTERBOX_SIZE = 1073741824 := by norm_num [MAX_LITTERBOX_SIZE]
  have hpy : pyIn "requested format not available"
      "The file passed the initial filesize guesstimation but is still too big to upload (> 1 GB)."
      = false := by decide
  refine ⟨?_, ?_, ?_, ?_, ?_, ?_⟩
  · intro hsz
    unfold deliveryTier
    rw [hD, if_pos hsz]
  · intro hgt hle
    unfold deliveryTier
    rw [hD, hL, if_neg (by omega), if_pos hle]
  · intro hgt
    unfold deliveryTier
    rw [hD, hL, if_neg (by omega), if_neg (by omega)]
  · intro hsz
    unfold download runTry
    simp [h1, h2, h3, h4, h5, h6, h7, hcrash, replyOr, hD, hL, hsz,
      trAfterFilter, trAfterResolve, Trace.init]
  · intro hgt hle
    have hn1 : ¬ env.size ≤ 26214400 := by omega
    unfold download runTry
    simp only [h1, h2, h3, h4, h5, h6, h7, hD, hL, hn1, hle]
    constructor
    · rcases hup : env.upload with link | mm <;>
        simp [hup, hn1, hle, h7, hcrash, replyOr, trUpload, trAfterFilter,
          trAfterResolve, Trace.init]
    · intro link hup
      simp [hup, hn1, hle, h7, hcrash, replyOr, trUpload, trAfterFilter,
        trAfterResolve, Trace.init]
  · intro hgt
    have hn1 : ¬ env.size ≤ 26214400 := by omega
    have hn2 : ¬ env.size ≤ 1073741824 := by omega
    unfold download runTry
    simp [h1, h2, h3, h4, h5, h6, h7, hn1, hn2, hD, hL, hpy, ErrKind.isArtemis,
      trAfterFilter, trAfterResolve, Trace.init]

/-- Witness for C1 at spec scenario A (5 MiB artifact, delivered inline). -/
theorem tier_selection_by_actual_size_witness :
    (download baseEnv).1 = .ok .inline ∧
    (download baseEnv).2.uploadAttempted = false :=
  (tier_selection_by_actual_size baseEnv 5242880
    ⟨rfl, rfl, rfl, rfl, rfl, rfl, rfl⟩ rfl).2.2.2.1 (by norm_num [baseEnv])

end Artemis
